import Mathlib

/-
Verification of the libfreenect2-rs binding layer.

This file gives a shallow embedding of the safe-wrapper core of the
repository (frame value model, multi-frame aggregation, driver context
guard, device session state machine, configuration and registration
validation) and proves the specified properties about it.

Conventions of the embedding:
* Rust functions returning `anyhow::Result` become Lean functions
  returning `Except e a`; the error payloads mirror the `ensure!` sites
  of the source.
* `f32` values that are only stored, compared and copied (config depths,
  frame exposure/gain/gamma) are modelled as rationals; the 4-byte float
  produced by `f32::from_ne_bytes` in `get_pixel` is modelled by its
  native-endian byte representation, since the code never computes with it.
* A Rust panic (failed `assert!`/out-of-bounds indexing) is modelled by
  `Option`, with `none` standing for the panic.
* Calls into native libfreenect2 code are abstracted: the native success
  result is a boolean parameter, and each operation additionally reports
  whether the native routine was invoked at all.
-/

namespace LibFreenect2

/-- Frame format enumeration from `types/frame.rs` (`FrameFormat`). -/
inductive FrameFormat where
  | Invalid
  | Raw
  | Float
  | RGBX
  | BGRX
  | Gray
deriving DecidableEq

/-- Frame type enumeration from `types/frame_type.rs` (`FrameType`). -/
inductive FrameType where
  | Color
  | Depth
  | Ir
deriving DecidableEq

/-- The `RGBX` pixel struct from `frame_data.rs`: red, green, blue and the
unused fourth channel. -/
structure RGBX where
  r : UInt8
  g : UInt8
  b : UInt8
  x : UInt8
deriving DecidableEq

/-- A decoded pixel value, from `types/frame_value.rs` (`FrameValue`).
The `Float` payload is represented by the four native-endian bytes that
`f32::from_ne_bytes` consumes, since the resulting float is only stored. -/
inductive FrameValue where
  | Raw : List UInt8 → FrameValue
  | Invalid : UInt8 → FrameValue
  | Float : List UInt8 → FrameValue
  | RGBX : RGBX → FrameValue
  | Gray : UInt8 → FrameValue
deriving DecidableEq

/-- A borrowed frame, from `types/frame.rs` (`Frame`).  The Rust struct
caches `width`, `height`, `bytes_per_pixel` and the `raw_data` slice and
reads the remaining metadata from the wrapped native frame; the embedding
keeps all of them as fields. -/
structure Frame where
  width : Nat
  height : Nat
  bytes_per_pixel : Nat
  raw_data : List UInt8
  timestamp : Nat
  sequence : Nat
  exposure : Rat
  gain : Rat
  gamma : Rat
  status : Nat
  format : FrameFormat
deriving DecidableEq

/-- An owned frame, from `types/frame.rs` (`OwnedFrame`): a fully copied
snapshot of a frame's metadata and byte buffer. -/
structure OwnedFrame where
  width : Nat
  height : Nat
  bytes_per_pixel : Nat
  timestamp : Nat
  data : List UInt8
  sequence : Nat
  exposure : Rat
  gain : Rat
  gamma : Rat
  status : Nat
  format : FrameFormat
deriving DecidableEq

/-- Length of the raw data required by the frame invariant
(`Freenect2Frame::raw_data_len`): `width * height * bytes_per_pixel`. -/
def Frame.raw_data_len (f : Frame) : Nat :=
  f.width * f.height * f.bytes_per_pixel

/-- `Frame::to_owned`: copies all metadata and the full byte buffer. -/
def Frame.to_owned (f : Frame) : OwnedFrame :=
  { width := f.width
    height := f.height
    bytes_per_pixel := f.bytes_per_pixel
    timestamp := f.timestamp
    data := f.raw_data
    sequence := f.sequence
    exposure := f.exposure
    gain := f.gain
    gamma := f.gamma
    status := f.status
    format := f.format }

/-- `OwnedFrame::to_frame`: rebuilds a borrowed frame over the owned
buffer via `create_frame`; the resulting view (`Frame::new`) covers
exactly `width * height * bytes_per_pixel` bytes of the buffer. -/
def OwnedFrame.to_frame (o : OwnedFrame) : Frame :=
  { width := o.width
    height := o.height
    bytes_per_pixel := o.bytes_per_pixel
    raw_data := o.data.take (o.width * o.height * o.bytes_per_pixel)
    timestamp := o.timestamp
    sequence := o.sequence
    exposure := o.exposure
    gain := o.gain
    gamma := o.gamma
    status := o.status
    format := o.format }

/-- `Freenect2Frame::get_pixel` from `types/frame.rs`.  `none` models a
panic: either a failed bounds `assert!` on the coordinates or an
out-of-bounds byte access into `raw_data`. -/
def Frame.get_pixel (f : Frame) (x y : Nat) : Option FrameValue :=
  if x < f.width then
    if y < f.height then
      let index := (y * f.width + x) * f.bytes_per_pixel
      match f.format with
      | FrameFormat.RGBX =>
        match f.raw_data.get? index, f.raw_data.get? (index + 1),
            f.raw_data.get? (index + 2), f.raw_data.get? (index + 3) with
        | some r, some g, some b, some u => some (FrameValue.RGBX ⟨r, g, b, u⟩)
        | _, _, _, _ => none
      | FrameFormat.BGRX =>
        match f.raw_data.get? index, f.raw_data.get? (index + 1),
            f.raw_data.get? (index + 2), f.raw_data.get? (index + 3) with
        | some b, some g, some r, some u => some (FrameValue.RGBX ⟨r, g, b, u⟩)
        | _, _, _, _ => none
      | FrameFormat.Gray => (f.raw_data.get? index).map FrameValue.Gray
      | FrameFormat.Float =>
        if index + 4 ≤ f.raw_data.length then
          some (FrameValue.Float ((f.raw_data.drop index).take 4))
        else none
      | FrameFormat.Raw =>
        if index + f.bytes_per_pixel ≤ f.raw_data.length then
          some (FrameValue.Raw ((f.raw_data.drop index).take f.bytes_per_pixel))
        else none
      | FrameFormat.Invalid => (f.raw_data.get? index).map FrameValue.Invalid
    else none
  else none

/-- Decoding described by the specification for `get_pixel`: read bytes
starting at offset `(y * width + x) * bytes_per_pixel` and decode them by
format.  This definition follows the spec's words and is compared against
`Frame.get_pixel`, which is translated from the source. -/
def Frame.spec_pixel_value (f : Frame) (x y : Nat) : FrameValue :=
  let i := (y * f.width + x) * f.bytes_per_pixel
  let b : Nat → UInt8 := fun k => f.raw_data.getD (i + k) 0
  match f.format with
  | FrameFormat.Float => FrameValue.Float [b 0, b 1, b 2, b 3]
  | FrameFormat.RGBX => FrameValue.RGBX ⟨b 0, b 1, b 2, b 3⟩
  | FrameFormat.BGRX => FrameValue.RGBX ⟨b 2, b 1, b 0, b 3⟩
  | FrameFormat.Gray => FrameValue.Gray (b 0)
  | FrameFormat.Raw => FrameValue.Raw ((f.raw_data.drop i).take f.bytes_per_pixel)
  | FrameFormat.Invalid => FrameValue.Invalid (b 0)

/-- The aggregation map from `types/frame_listener.rs` (`FrameMap<T>`):
at most one pending frame of each of the three types. -/
structure FrameMap (T : Type) where
  color : Option T
  ir : Option T
  depth : Option T
deriving DecidableEq

/-- `FrameMap::default`: all three slots empty. -/
def FrameMap.empty (T : Type) : FrameMap T :=
  ⟨none, none, none⟩

/-- `FrameMap::insert`: store the frame in the slot of its type
(overwriting any pending frame of that type). -/
def FrameMap.insert {T : Type} (m : FrameMap T) (ty : FrameType) (frame : T) :
    FrameMap T :=
  match ty with
  | FrameType.Color => { m with color := some frame }
  | FrameType.Ir => { m with ir := some frame }
  | FrameType.Depth => { m with depth := some frame }

/-- Read the slot of a frame type; corresponds to the accessors
`FrameMap::color` / `FrameMap::ir` / `FrameMap::depth`. -/
def FrameMap.get {T : Type} (m : FrameMap T) : FrameType → Option T
  | FrameType.Color => m.color
  | FrameType.Ir => m.ir
  | FrameType.Depth => m.depth

/-- The required-type flags from `types/frame_listener.rs` (`FrameTypes`). -/
structure FrameTypes where
  color : Bool
  ir : Bool
  depth : Bool
deriving DecidableEq

/-- `FrameTypes::new`: flag each type contained in the list. -/
def FrameTypes.ofList (types : List FrameType) : FrameTypes :=
  ⟨types.contains FrameType.Color, types.contains FrameType.Ir,
    types.contains FrameType.Depth⟩

/-- Membership of a frame type in the required set. -/
def FrameTypes.mem (t : FrameTypes) : FrameType → Bool
  | FrameType.Color => t.color
  | FrameType.Ir => t.ir
  | FrameType.Depth => t.depth

/-- `FrameMap::contains_values`: the map holds a frame for every
required type. -/
def FrameMap.contains_values {T : Type} (m : FrameMap T) (types : FrameTypes) :
    Bool :=
  (!types.color || m.color.isSome)
    && (!types.ir || m.ir.isSome)
    && (!types.depth || m.depth.isSome)

/-- State of a `MultiFrameListener<T>`: the required types fixed at
construction, the mutex-guarded pending `FrameMap`, and the contents of
the `std::sync::mpsc` channel between the listener closure and the
consumer, oldest message first. -/
structure MultiFrameListener (T : Type) where
  types : FrameTypes
  frames : FrameMap T
  chan : List (FrameMap T)
deriving DecidableEq

/-- Error raised by `MultiFrameListener::new` on an empty type list
(`anyhow::ensure!`). -/
def noFrameTypesError : String := "At least one frame type must be specified"

/-- `MultiFrameListener::new`: fails if no frame types are given,
otherwise starts with an empty map and an empty channel. -/
def MultiFrameListener.new (T : Type) (frame_types : List FrameType) :
    Except String (MultiFrameListener T) :=
  if frame_types.isEmpty then Except.error noFrameTypesError
  else Except.ok ⟨FrameTypes.ofList frame_types, FrameMap.empty T, []⟩

/-- One invocation of the listener closure built in
`MultiFrameListener::new`: insert the arrived frame into the map; if the
map now contains every required type, `std::mem::take` the map (leaving
the default empty map) and send the taken map on the channel. -/
def MultiFrameListener.deliver {T : Type} (l : MultiFrameListener T)
    (ty : FrameType) (frame : T) : MultiFrameListener T :=
  let inserted := l.frames.insert ty frame
  if inserted.contains_values l.types then
    { l with frames := FrameMap.empty T, chan := l.chan ++ [inserted] }
  else
    { l with frames := inserted }

/-- Deliver a whole sequence of `(type, frame)` arrivals in order. -/
def MultiFrameListener.deliverAll {T : Type} (l : MultiFrameListener T)
    (arrivals : List (FrameType × T)) : MultiFrameListener T :=
  arrivals.foldl (fun s a => s.deliver a.1 a.2) l

/-- `MultiFrameListener::get_frames`: a blocking `Receiver::recv`.
Returns the oldest message in the channel together with the successor
state; `none` models blocking forever on an empty channel with no
producer. -/
def MultiFrameListener.get_frames {T : Type} (l : MultiFrameListener T) :
    Option (FrameMap T × MultiFrameListener T) :=
  match l.chan with
  | [] => none
  | m :: rest => some (m, { l with chan := rest })

/-- Error result of `Receiver::recv_timeout` elapsing. -/
inductive RecvTimeoutError where
  | timeout
deriving DecidableEq

/-- `MultiFrameListener::get_frames_with_timeout`: the arrivals that the
native thread delivers within the timeout window are given explicitly;
the receive yields the oldest channel message once one exists, and the
timeout error when the channel stays empty through the window. -/
def MultiFrameListener.get_frames_with_timeout {T : Type}
    (l : MultiFrameListener T) (arrivals : List (FrameType × T)) :
    Except RecvTimeoutError (FrameMap T × MultiFrameListener T) :=
  let l2 := l.deliverAll arrivals
  match l2.chan with
  | [] => Except.error RecvTimeoutError.timeout
  | m :: rest => Except.ok (m, { l2 with chan := rest })

/-- State of the driver context guard from `types/freenect2.rs`: the
static `FREENECT2 : Mutex<Weak<Mutex<Freenect2Impl>>>` plus the multiset
of native-context ids held by live `Freenect2` handles.  `nextId` names
the next native context to be constructed, `weakRef` is the id the stored
weak reference points at (possibly already dead), and `handles` lists the
id held by each live `Freenect2` handle. -/
structure GuardState where
  nextId : Nat
  weakRef : Option Nat
  handles : List Nat
deriving DecidableEq

/-- `Weak::upgrade` on the stored weak reference: succeeds exactly when
the pointed-to context still has a live strong holder. -/
def GuardState.upgrade (s : GuardState) : Option Nat :=
  s.weakRef.bind (fun i => if i ∈ s.handles then some i else none)

/-- `Freenect2::new`: lock the static, try to upgrade the weak reference
and share the live context on success; otherwise construct a fresh native
context (`createOk` is the native construction succeeding) and store a
weak reference to it.  Returns the id of the handed-out context, `none`
when construction failed. -/
def Freenect2.new (s : GuardState) (createOk : Bool) :
    Option Nat × GuardState :=
  match s.upgrade with
  | some i => (some i, { s with handles := i :: s.handles })
  | none =>
    if createOk then
      (some s.nextId,
        ⟨s.nextId + 1, some s.nextId, s.nextId :: s.handles⟩)
    else (none, s)

/-- Dropping a `Freenect2` handle: one strong reference to context `i`
goes away; the native context is destroyed when its last holder drops. -/
def Freenect2.drop (s : GuardState) (i : Nat) : GuardState :=
  { s with handles := s.handles.erase i }

/-- States of the guard reachable by any interleaving of `Freenect2::new`
calls and handle drops, starting from the initial empty static. -/
inductive GuardReachable : GuardState → Prop where
  | init : GuardReachable ⟨0, none, []⟩
  | step_new :
      GuardReachable s → GuardReachable (Freenect2.new s createOk).2
  | step_drop : GuardReachable s → GuardReachable (Freenect2.drop s i)

/-- Session flags of `types/freenect2_device.rs` (`Freenect2Device`):
the `started` and `closed` booleans guarding every operation. -/
structure Freenect2Device where
  started : Bool
  closed : Bool
deriving DecidableEq

/-- `Freenect2Device::new`: a freshly opened device is neither started
nor closed. -/
def Freenect2Device.mkNew : Freenect2Device :=
  ⟨false, false⟩

/-- Errors of the device session operations, one constructor per
`ensure!`/failure site in `types/freenect2_device.rs`. -/
inductive DeviceError where
  | deviceClosed
  | notStarted
  | mustBeStopped
  | noStreamEnabled
  | startFailed
  | stopFailed
  | closeFailed
  | nativeError
deriving DecidableEq, Fintype

/-- A device error raised by a state-machine precondition check
(`InvalidState` in the spec's error taxonomy): the session is closed, not
yet started, or not yet stopped. -/
def DeviceError.is_invalid_state : DeviceError → Bool
  | DeviceError.deviceClosed => true
  | DeviceError.notStarted => true
  | DeviceError.mustBeStopped => true
  | _ => false

/-- Decidable equality for `Except` results, needed to evaluate concrete
operation outcomes. -/
instance {ε α : Type} [DecidableEq ε] [DecidableEq α] :
    DecidableEq (Except ε α) := fun x y =>
  match x, y with
  | Except.ok a, Except.ok b =>
    if h : a = b then Decidable.isTrue (by rw [h])
    else Decidable.isFalse (fun hc => h (Except.ok.inj hc))
  | Except.error a, Except.error b =>
    if h : a = b then Decidable.isTrue (by rw [h])
    else Decidable.isFalse (fun hc => h (Except.error.inj hc))
  | Except.ok _, Except.error _ =>
    Decidable.isFalse (fun hc => Except.noConfusion hc)
  | Except.error _, Except.ok _ =>
    Decidable.isFalse (fun hc => Except.noConfusion hc)

/-- Result of a device operation: the returned `anyhow::Result`, the
session state afterwards, and whether the native routine was invoked. -/
structure DeviceStep where
  result : Except DeviceError Unit
  device : Freenect2Device
  nativeCalled : Bool
deriving DecidableEq

/-- `Freenect2Device::start_streams(color, depth)`: requires at least one
stream, a non-closed and non-started session; the native call returning
`false` is escalated to an error and leaves `started` untouched. -/
def Freenect2Device.start_streams (d : Freenect2Device)
    (color depth : Bool) (nativeOk : Bool) : DeviceStep :=
  if !(color || depth) then ⟨Except.error DeviceError.noStreamEnabled, d, false⟩
  else if d.closed then ⟨Except.error DeviceError.deviceClosed, d, false⟩
  else if d.started then ⟨Except.error DeviceError.mustBeStopped, d, false⟩
  else if nativeOk then ⟨Except.ok (), { d with started := true }, true⟩
  else ⟨Except.error DeviceError.startFailed, d, true⟩

/-- `Freenect2Device::start`: like `start_streams` with both streams
enabled and without the stream-selection check. -/
def Freenect2Device.start (d : Freenect2Device) (nativeOk : Bool) :
    DeviceStep :=
  if d.closed then ⟨Except.error DeviceError.deviceClosed, d, false⟩
  else if d.started then ⟨Except.error DeviceError.mustBeStopped, d, false⟩
  else if nativeOk then ⟨Except.ok (), { d with started := true }, true⟩
  else ⟨Except.error DeviceError.startFailed, d, true⟩

/-- `Freenect2Device::stop`: requires a non-closed, started session; on
native success `started` becomes `false` again. -/
def Freenect2Device.stop (d : Freenect2Device) (nativeOk : Bool) :
    DeviceStep :=
  if d.closed then ⟨Except.error DeviceError.deviceClosed, d, false⟩
  else if !d.started then ⟨Except.error DeviceError.notStarted, d, false⟩
  else if nativeOk then ⟨Except.ok (), { d with started := false }, true⟩
  else ⟨Except.error DeviceError.stopFailed, d, true⟩

/-- `Freenect2Device::close`: requires a non-closed session; on native
success the session becomes closed for good. -/
def Freenect2Device.close (d : Freenect2Device) (nativeOk : Bool) :
    DeviceStep :=
  if d.closed then ⟨Except.error DeviceError.deviceClosed, d, false⟩
  else if nativeOk then ⟨Except.ok (), { d with closed := true }, true⟩
  else ⟨Except.error DeviceError.closeFailed, d, true⟩

/-- `Freenect2Device::set_color_frame_listener`: checks that the session
is not closed before invoking the native registration. -/
def Freenect2Device.set_color_frame_listener (d : Freenect2Device)
    (nativeOk : Bool) : DeviceStep :=
  if d.closed then ⟨Except.error DeviceError.deviceClosed, d, false⟩
  else if nativeOk then ⟨Except.ok (), d, true⟩
  else ⟨Except.error DeviceError.nativeError, d, true⟩

/-- `Freenect2Device::set_ir_and_depth_frame_listener`: invokes the
native registration directly; the source contains no `closed` check in
this method. -/
def Freenect2Device.set_ir_and_depth_frame_listener (d : Freenect2Device)
    (nativeOk : Bool) : DeviceStep :=
  if nativeOk then ⟨Except.ok (), d, true⟩
  else ⟨Except.error DeviceError.nativeError, d, true⟩

/-- The configuration object of `types/config.rs` (`Config`); the two
depth bounds are `f32` values that are only stored and compared, modelled
as rationals. -/
structure Config where
  min_depth : Rat
  max_depth : Rat
  enable_bilateral_filter : Bool
  enable_edge_aware_filter : Bool
deriving DecidableEq

/-- `Config::new`: the documented native defaults (min 0.5, max 4.5,
both filters on). -/
def Config.mkNew : Config :=
  ⟨1 / 2, 9 / 2, true, true⟩

/-- `Config::set_min_depth`: requires `0 < v` and `v < max_depth`; a
failed check returns before mutating, so the stored config is unchanged
on error. -/
def Config.set_min_depth (c : Config) (v : Rat) :
    Except String Unit × Config :=
  if v > 0 then
    if v < c.max_depth then (Except.ok (), { c with min_depth := v })
    else (Except.error "Min depth must be less than max depth", c)
  else (Except.error "Min depth must be greater than 0", c)

/-- `Config::set_max_depth`: requires `v > min_depth`; a failed check
returns before mutating. -/
def Config.set_max_depth (c : Config) (v : Rat) :
    Except String Unit × Config :=
  if v > c.min_depth then (Except.ok (), { c with max_depth := v })
  else (Except.error "Max depth must be greater than min depth", c)

/-- The descriptive payload of the `ensure_frame!` failure in
`types/registration.rs`: which parameter was rejected, the expected
formats and resolution, and the shape actually found. -/
structure InvalidFrameShape where
  param : String
  expected_formats : List FrameFormat
  expected_width : Nat
  expected_height : Nat
  found_format : FrameFormat
  found_width : Nat
  found_height : Nat
  found_bpp : Nat
deriving DecidableEq

/-- The boolean condition of the `ensure_frame!` macro: allowed format,
exact resolution, 4 bytes per pixel and a buffer of exactly
`width * height * bytes_per_pixel` bytes. -/
def frame_ok (f : Frame) (formats : List FrameFormat) (w h : Nat) : Bool :=
  formats.contains f.format
    && f.width == w
    && f.height == h
    && f.bytes_per_pixel == 4
    && f.raw_data.length == f.raw_data_len

/-- One expansion of `ensure_frame!`: pass, or fail with the descriptive
shape error for this parameter. -/
def ensure_frame (name : String) (f : Frame) (formats : List FrameFormat)
    (w h : Nat) : Except InvalidFrameShape Unit :=
  if frame_ok f formats w h then Except.ok ()
  else
    Except.error
      ⟨name, formats, w, h, f.format, f.width, f.height, f.bytes_per_pixel⟩

/-- Result of a registration call: the returned `anyhow::Result` and
whether the native mapping routine was invoked. -/
structure RegistrationStep where
  result : Except InvalidFrameShape Unit
  nativeCalled : Bool
deriving DecidableEq

/-- `Registration::map_depth_to_color`: validates the four frames in
source order against the fixed shape table, then invokes the native
mapping. -/
def Registration.map_depth_to_color (depth color undistorted_depth
    color_depth_image : Frame) : RegistrationStep :=
  match ensure_frame "depth" depth [FrameFormat.Float] 512 424 with
  | Except.error e => ⟨Except.error e, false⟩
  | Except.ok _ =>
    match ensure_frame "color" color [FrameFormat.RGBX, FrameFormat.BGRX]
        1920 1080 with
    | Except.error e => ⟨Except.error e, false⟩
    | Except.ok _ =>
      match ensure_frame "undistorted_depth" undistorted_depth
          [FrameFormat.Float] 512 424 with
      | Except.error e => ⟨Except.error e, false⟩
      | Except.ok _ =>
        match ensure_frame "color_depth_image" color_depth_image
            [FrameFormat.RGBX, FrameFormat.BGRX] 512 424 with
        | Except.error e => ⟨Except.error e, false⟩
        | Except.ok _ => ⟨Except.ok (), true⟩

/-- `Registration::map_depth_to_full_color`: the same four checks plus
the `big_depth` frame, then the native mapping. -/
def Registration.map_depth_to_full_color (depth color undistorted_depth
    color_depth_image big_depth : Frame) : RegistrationStep :=
  match ensure_frame "depth" depth [FrameFormat.Float] 512 424 with
  | Except.error e => ⟨Except.error e, false⟩
  | Except.ok _ =>
    match ensure_frame "color" color [FrameFormat.RGBX, FrameFormat.BGRX]
        1920 1080 with
    | Except.error e => ⟨Except.error e, false⟩
    | Except.ok _ =>
      match ensure_frame "undistorted_depth" undistorted_depth
          [FrameFormat.Float] 512 424 with
      | Except.error e => ⟨Except.error e, false⟩
      | Except.ok _ =>
        match ensure_frame "color_depth_image" color_depth_image
            [FrameFormat.RGBX, FrameFormat.BGRX] 512 424 with
        | Except.error e => ⟨Except.error e, false⟩
        | Except.ok _ =>
          match ensure_frame "big_depth" big_depth [FrameFormat.Float]
              1920 1082 with
          | Except.error e => ⟨Except.error e, false⟩
          | Except.ok _ => ⟨Except.ok (), true⟩

/-- `Registration::undistort_depth`: validates the two depth frames, then
invokes the native routine. -/
def Registration.undistort_depth (depth undistorted_depth : Frame) :
    RegistrationStep :=
  match ensure_frame "depth" depth [FrameFormat.Float] 512 424 with
  | Except.error e => ⟨Except.error e, false⟩
  | Except.ok _ =>
    match ensure_frame "undistorted_depth" undistorted_depth
        [FrameFormat.Float] 512 424 with
    | Except.error e => ⟨Except.error e, false⟩
    | Except.ok _ => ⟨Except.ok (), true⟩

/-- `Config::get_min_depth`: read the stored minimum depth. -/
def Config.get_min_depth (c : Config) : Rat := c.min_depth

/-- `Config::get_max_depth`: read the stored maximum depth. -/
def Config.get_max_depth (c : Config) : Rat := c.max_depth

/-- C4: calling `stop()` while the session is not started returns an
invalid-state error without calling into native code and without changing
the session; `start_streams(false, false)` returns the invalid-argument
error in every session state, also without a native call; and a
successful `stop()` leaves a state from which `start`/`start_streams`
may be called again. -/
theorem C4_stop_and_start_streams (d : Freenect2Device) (nativeOk : Bool) :
    (d.started = false →
      (∃ e, (d.stop nativeOk).result = Except.error e
          ∧ e.is_invalid_state = true)
        ∧ (d.stop nativeOk).nativeCalled = false
        ∧ (d.stop nativeOk).device = d)
    ∧ ((d.start_streams false false nativeOk).result
          = Except.error DeviceError.noStreamEnabled
        ∧ (d.start_streams false false nativeOk).nativeCalled = false
        ∧ (d.start_streams false false nativeOk).device = d)
    ∧ ((d.stop nativeOk).result = Except.ok () →
        ((d.stop nativeOk).device.start true).result = Except.ok ()
          ∧ ∀ color depth, (color || depth) = true →
              ((d.stop nativeOk).device.start_streams color depth
                true).result = Except.ok ()) := by
  obtain ⟨st, cl⟩ := d
  cases st <;> cases cl <;> cases nativeOk <;> decide

/-- Witness for C4 at a freshly opened (never started) device. -/
theorem C4_witness :
    (∃ e, (Freenect2Device.mkNew.stop true).result = Except.error e
        ∧ e.is_invalid_state = true)
      ∧ (Freenect2Device.mkNew.stop true).nativeCalled = false
      ∧ (Freenect2Device.mkNew.stop true).device = Freenect2Device.mkNew := by
  exact (C4_stop_and_start_streams Freenect2Device.mkNew true).1 rfl

/-- C5 counterexample: on a closed session,
`set_ir_and_depth_frame_listener` does not return an error — it invokes
the native registration and succeeds — so the not-closed precondition is
not checked by both listener-attachment operations. -/
theorem C5_counterexample :
    ((⟨false, true⟩ : Freenect2Device).set_ir_and_depth_frame_listener
        true).result = Except.ok ()
      ∧ ((⟨false, true⟩ : Freenect2Device).set_ir_and_depth_frame_listener
          true).nativeCalled = true := by
  decide

/-- C5 (amended): on a closed session `set_color_frame_listener` returns
an error without a native call, while `set_ir_and_depth_frame_listener`
performs no closed check: it always invokes the native registration and
its result is exactly the native outcome. -/
theorem C5_listener_closed_check (d : Freenect2Device) (nativeOk : Bool) :
    (d.closed = true →
      (d.set_color_frame_listener nativeOk).result
          = Except.error DeviceError.deviceClosed
        ∧ (d.set_color_frame_listener nativeOk).nativeCalled = false)
    ∧ (d.set_ir_and_depth_frame_listener nativeOk).nativeCalled = true
    ∧ (d.set_ir_and_depth_frame_listener nativeOk).result
        = (if nativeOk then Except.ok () else
            Except.error DeviceError.nativeError) := by
  obtain ⟨st, cl⟩ := d
  cases st <;> cases cl <;> cases nativeOk <;> decide

/-- Witness for C5 at a concrete closed session. -/
theorem C5_witness :
    ((⟨false, true⟩ : Freenect2Device).set_color_frame_listener
        true).result = Except.error DeviceError.deviceClosed
      ∧ ((⟨false, true⟩ : Freenect2Device).set_color_frame_listener
          true).nativeCalled = false := by
  exact (C5_listener_closed_check ⟨false, true⟩ true).1 rfl

/-- C8: with a positive stored minimum depth, `set_min_depth v` succeeds
exactly when `0 < v < max`, `set_max_depth v` succeeds exactly when
`v > 0` and `v > min`; a successful setter is read back by the getter and
leaves the other bound alone; a failed setter leaves the config
unchanged. -/
theorem C8_config_depth_setters (c : Config) (v : Rat)
    (hmin : 0 < c.min_depth) :
    (((c.set_min_depth v).1 = Except.ok ())
        ↔ (0 < v ∧ v < c.get_max_depth))
    ∧ ((v ≤ 0 ∨ c.get_max_depth ≤ v) → (c.set_min_depth v).2 = c)
    ∧ (0 < v → v < c.get_max_depth →
        (c.set_min_depth v).2.get_min_depth = v
          ∧ (c.set_min_depth v).2.get_max_depth = c.get_max_depth)
    ∧ (((c.set_max_depth v).1 = Except.ok ())
        ↔ (0 < v ∧ c.get_min_depth < v))
    ∧ ((v ≤ 0 ∨ v ≤ c.get_min_depth) → (c.set_max_depth v).2 = c)
    ∧ (0 < v → c.get_min_depth < v →
        (c.set_max_depth v).2.get_max_depth = v
          ∧ (c.set_max_depth v).2.get_min_depth = c.get_min_depth) := by
  simp only [Config.set_min_depth, Config.set_max_depth,
    Config.get_min_depth, Config.get_max_depth]
  refine ⟨?_, ?_, ?_, ?_, ?_, ?_⟩
  · split_ifs with hv hm
    · simpa using ⟨hv, hm⟩
    · simp only [reduceCtorEq, false_iff, not_and, not_lt]
      intro _
      exact le_of_not_lt hm
    · simp only [reduceCtorEq, false_iff, not_and, not_lt]
      intro h1
      exact absurd h1 hv
  · intro h
    split_ifs with hv hm
    · rcases h with h | h <;> linarith
    · rfl
    · rfl
  · intro hv hm
    rw [if_pos hv, if_pos hm]
    exact ⟨rfl, rfl⟩
  · split_ifs with hv
    · simp only [true_iff]
      exact ⟨by linarith, hv⟩
    · simp only [reduceCtorEq, false_iff, not_and, not_lt]
      intro _
      exact le_of_not_lt hv
  · intro h
    split_ifs with hv
    · rcases h with h | h <;> linarith
    · rfl
  · intro hv hm
    rw [if_pos hm]
    exact ⟨rfl, rfl⟩

/-- Witness for C8 at the default configuration (min 0.5, max 4.5). -/
theorem C8_witness :
    ((Config.mkNew.set_min_depth 1).1 = Except.ok ()
        ↔ (0 < (1 : Rat) ∧ (1 : Rat) < Config.mkNew.get_max_depth))
      ∧ ((Config.mkNew.set_min_depth 1).2.get_min_depth = 1
          ∧ (Config.mkNew.set_min_depth 1).2.get_max_depth
              = Config.mkNew.get_max_depth) := by
  have h := C8_config_depth_setters Config.mkNew 1 (by norm_num [Config.mkNew])
  exact ⟨h.1, h.2.2.1 (by norm_num) (by norm_num [Config.mkNew, Config.get_max_depth])⟩

/-- C9: the round trip `frame.to_owned().to_frame()` preserves width,
height, bytes-per-pixel, format, timestamp, sequence, exposure, gain,
gamma and status, and yields a byte-identical buffer, for every frame
satisfying the frame length invariant. -/
theorem C9_round_trip (f : Frame)
    (h : f.raw_data.length = f.width * f.height * f.bytes_per_pixel) :
    f.to_owned.to_frame.width = f.width
      ∧ f.to_owned.to_frame.height = f.height
      ∧ f.to_owned.to_frame.bytes_per_pixel = f.bytes_per_pixel
      ∧ f.to_owned.to_frame.format = f.format
      ∧ f.to_owned.to_frame.timestamp = f.timestamp
      ∧ f.to_owned.to_frame.sequence = f.sequence
      ∧ f.to_owned.to_frame.exposure = f.exposure
      ∧ f.to_owned.to_frame.gain = f.gain
      ∧ f.to_owned.to_frame.gamma = f.gamma
      ∧ f.to_owned.to_frame.status = f.status
      ∧ f.to_owned.to_frame.raw_data = f.raw_data := by
  refine ⟨rfl, rfl, rfl, rfl, rfl, rfl, rfl, rfl, rfl, rfl, ?_⟩
  simp only [Frame.to_owned, OwnedFrame.to_frame]
  rw [← h, List.take_length]

/-- Witness for C9 at a concrete 2x1 gray frame. -/
theorem C9_witness :
    (⟨2, 1, 1, [5, 6], 10, 3, 1, 1, 1, 0,
        FrameFormat.Gray⟩ : Frame).to_owned.to_frame.raw_data = [5, 6] := by
  exact (C9_round_trip
    ⟨2, 1, 1, [5, 6], 10, 3, 1, 1, 1, 0, FrameFormat.Gray⟩
    (by decide)).2.2.2.2.2.2.2.2.2.2

/-- C6: each registration operation validates every frame against the
fixed shape table before any native call — the native routine is invoked
exactly when all frames pass — and a mismatch produces the descriptive
shape error naming the offending parameter with the expected and found
shapes, without invoking the native routine. -/
theorem C6_registration_shape_validation
    (depth color undistorted_depth color_depth_image big_depth : Frame) :
    ((Registration.map_depth_to_color depth color undistorted_depth
          color_depth_image).nativeCalled
        = (frame_ok depth [FrameFormat.Float] 512 424
            && frame_ok color [FrameFormat.RGBX, FrameFormat.BGRX] 1920 1080
            && frame_ok undistorted_depth [FrameFormat.Float] 512 424
            && frame_ok color_depth_image [FrameFormat.RGBX, FrameFormat.BGRX]
                512 424))
    ∧ (frame_ok depth [FrameFormat.Float] 512 424 = false →
        (Registration.map_depth_to_color depth color undistorted_depth
            color_depth_image).result
          = Except.error ⟨"depth", [FrameFormat.Float], 512, 424,
              depth.format, depth.width, depth.height, depth.bytes_per_pixel⟩
        ∧ (Registration.map_depth_to_color depth color undistorted_depth
            color_depth_image).nativeCalled = false)
    ∧ (frame_ok depth [FrameFormat.Float] 512 424 = true →
        frame_ok color [FrameFormat.RGBX, FrameFormat.BGRX] 1920 1080
            = false →
        (Registration.map_depth_to_color depth color undistorted_depth
            color_depth_image).result
          = Except.error ⟨"color", [FrameFormat.RGBX, FrameFormat.BGRX],
              1920, 1080, color.format, color.width, color.height,
              color.bytes_per_pixel⟩
        ∧ (Registration.map_depth_to_color depth color undistorted_depth
            color_depth_image).nativeCalled = false)
    ∧ ((Registration.map_depth_to_full_color depth color undistorted_depth
          color_depth_image big_depth).nativeCalled
        = (frame_ok depth [FrameFormat.Float] 512 424
            && frame_ok color [FrameFormat.RGBX, FrameFormat.BGRX] 1920 1080
            && frame_ok undistorted_depth [FrameFormat.Float] 512 424
            && frame_ok color_depth_image [FrameFormat.RGBX, FrameFormat.BGRX]
                512 424
            && frame_ok big_depth [FrameFormat.Float] 1920 1082))
    ∧ ((Registration.map_depth_to_full_color depth color undistorted_depth
          color_depth_image big_depth).nativeCalled = false →
        ∃ e, (Registration.map_depth_to_full_color depth color
            undistorted_depth color_depth_image big_depth).result
          = Except.error e)
    ∧ ((Registration.undistort_depth depth undistorted_depth).nativeCalled
        = (frame_ok depth [FrameFormat.Float] 512 424
            && frame_ok undistorted_depth [FrameFormat.Float] 512 424))
    ∧ ((Registration.undistort_depth depth
          undistorted_depth).nativeCalled = false →
        ∃ e, (Registration.undistort_depth depth undistorted_depth).result
          = Except.error e) := by
  by_cases h1 : frame_ok depth [FrameFormat.Float] 512 424 = true <;>
  by_cases h2 : frame_ok color [FrameFormat.RGBX, FrameFormat.BGRX]
      1920 1080 = true <;>
  by_cases h3 : frame_ok undistorted_depth [FrameFormat.Float]
      512 424 = true <;>
  by_cases h4 : frame_ok color_depth_image
      [FrameFormat.RGBX, FrameFormat.BGRX] 512 424 = true <;>
  by_cases h5 : frame_ok big_depth [FrameFormat.Float] 1920 1082 = true <;>
  simp_all [Registration.map_depth_to_color,
    Registration.map_depth_to_full_color, Registration.undistort_depth,
    ensure_frame]

/-- Witness for C6: a 320x240 depth frame is rejected with the
descriptive shape error naming the `depth` parameter, and the native
mapping is not invoked. -/
theorem C6_witness :
    (Registration.map_depth_to_color
        ⟨320, 240, 4, [], 0, 0, 0, 0, 0, 0, FrameFormat.Float⟩
        ⟨320, 240, 4, [], 0, 0, 0, 0, 0, 0, FrameFormat.Float⟩
        ⟨320, 240, 4, [], 0, 0, 0, 0, 0, 0, FrameFormat.Float⟩
        ⟨320, 240, 4, [], 0, 0, 0, 0, 0, 0, FrameFormat.Float⟩).result
      = Except.error ⟨"depth", [FrameFormat.Float], 512, 424,
          FrameFormat.Float, 320, 240, 4⟩
    ∧ (Registration.map_depth_to_color
        ⟨320, 240, 4, [], 0, 0, 0, 0, 0, 0, FrameFormat.Float⟩
        ⟨320, 240, 4, [], 0, 0, 0, 0, 0, 0, FrameFormat.Float⟩
        ⟨320, 240, 4, [], 0, 0, 0, 0, 0, 0, FrameFormat.Float⟩
        ⟨320, 240, 4, [], 0, 0, 0, 0, 0, 0, FrameFormat.Float⟩).nativeCalled
      = false := by
  exact (C6_registration_shape_validation
    ⟨320, 240, 4, [], 0, 0, 0, 0, 0, 0, FrameFormat.Float⟩
    ⟨320, 240, 4, [], 0, 0, 0, 0, 0, 0, FrameFormat.Float⟩
    ⟨320, 240, 4, [], 0, 0, 0, 0, 0, 0, FrameFormat.Float⟩
    ⟨320, 240, 4, [], 0, 0, 0, 0, 0, 0, FrameFormat.Float⟩
    ⟨320, 240, 4, [], 0, 0, 0, 0, 0, 0, FrameFormat.Float⟩).2.1 (by decide)

/-- Inserting a frame of one type leaves the slots of the other types
untouched. -/
theorem FrameMap.insert_get_of_ne {T : Type} (m : FrameMap T)
    (ty t : FrameType) (fr : T) (h : t ≠ ty) :
    (m.insert ty fr).get t = m.get t := by
  cases ty <;> cases t <;>
    simp_all [FrameMap.insert, FrameMap.get]

/-- A map missing a required type is not complete. -/
theorem FrameMap.contains_values_eq_false_of_missing {T : Type}
    (m : FrameMap T) (R : FrameTypes) (t : FrameType)
    (hreq : R.mem t = true) (hnone : m.get t = none) :
    m.contains_values R = false := by
  cases t <;>
    simp_all [FrameTypes.mem, FrameMap.get, FrameMap.contains_values]

/-- Unfolding a delivery sequence one arrival at a time. -/
theorem MultiFrameListener.deliverAll_cons {T : Type}
    (l : MultiFrameListener T) (a : FrameType × T)
    (rest : List (FrameType × T)) :
    l.deliverAll (a :: rest) = (l.deliver a.1 a.2).deliverAll rest := rfl

/-- If every arrival avoids some required type, no handoff happens: the
channel and the missing slot are untouched by the whole sequence. -/
theorem deliverAll_chan_avoid {T : Type} (t : FrameType)
    (arrivals : List (FrameType × T)) :
    ∀ l : MultiFrameListener T, l.types.mem t = true →
      l.frames.get t = none → (∀ a ∈ arrivals, a.1 ≠ t) →
      (l.deliverAll arrivals).chan = l.chan
        ∧ (l.deliverAll arrivals).frames.get t = none
        ∧ (l.deliverAll arrivals).types = l.types := by
  induction arrivals with
  | nil => exact fun l _ h2 _ => ⟨rfl, h2, rfl⟩
  | cons a rest ih =>
    intro l h1 h2 h3
    have hne : a.1 ≠ t := h3 a (List.mem_cons_self a rest)
    have hins : (l.frames.insert a.1 a.2).get t = none := by
      rw [FrameMap.insert_get_of_ne _ _ _ _ (Ne.symm hne)]
      exact h2
    have hcv : (l.frames.insert a.1 a.2).contains_values l.types = false :=
      FrameMap.contains_values_eq_false_of_missing _ _ t h1 hins
    have hstep : l.deliver a.1 a.2
        = { l with frames := l.frames.insert a.1 a.2 } := by
      simp [MultiFrameListener.deliver, hcv]
    rw [MultiFrameListener.deliverAll_cons, hstep]
    exact ih { l with frames := l.frames.insert a.1 a.2 } h1 hins
      (fun b hb => h3 b (List.mem_cons_of_mem a hb))

/-- A delivery sequence only ever appends to the channel: every message
present before is still present, in its old position. -/
theorem deliverAll_chan_append {T : Type}
    (arrivals : List (FrameType × T)) :
    ∀ l : MultiFrameListener T,
      ∃ news, (l.deliverAll arrivals).chan = l.chan ++ news := by
  induction arrivals with
  | nil => exact fun l => ⟨[], (List.append_nil l.chan).symm⟩
  | cons a rest ih =>
    intro l
    obtain ⟨news2, h2⟩ := ih (l.deliver a.1 a.2)
    rw [MultiFrameListener.deliverAll_cons] at *
    by_cases hc : (l.frames.insert a.1 a.2).contains_values l.types = true
    · refine ⟨[l.frames.insert a.1 a.2] ++ news2, ?_⟩
      rw [h2]
      simp [MultiFrameListener.deliver, hc]
    · refine ⟨news2, ?_⟩
      rw [h2]
      simp [MultiFrameListener.deliver, hc]

/-- C2: a multi-frame listener cannot be built from an empty type list; a
non-empty list yields an empty map and channel; a delivery hands off
exactly when the map becomes complete for the required types, swapping in
the empty map; arrivals that all avoid some required type never hand
anything off; and the timed receive reports the timeout error when no
complete set is handed off within the window. -/
theorem C2_aggregator_protocol (T : Type) :
    MultiFrameListener.new T [] = Except.error noFrameTypesError
    ∧ (∀ ts : List FrameType, ts ≠ [] →
        MultiFrameListener.new T ts
          = Except.ok ⟨FrameTypes.ofList ts, FrameMap.empty T, []⟩)
    ∧ (∀ (l : MultiFrameListener T) (ty : FrameType) (fr : T),
        ((l.frames.insert ty fr).contains_values l.types = true →
          l.deliver ty fr
            = ⟨l.types, FrameMap.empty T,
                l.chan ++ [l.frames.insert ty fr]⟩)
        ∧ ((l.frames.insert ty fr).contains_values l.types = false →
          l.deliver ty fr = ⟨l.types, l.frames.insert ty fr, l.chan⟩))
    ∧ (∀ (ts : List FrameType) (arrivals : List (FrameType × T))
          (t : FrameType),
        (FrameTypes.ofList ts).mem t = true →
        (∀ a ∈ arrivals, a.1 ≠ t) →
        ((⟨FrameTypes.ofList ts, FrameMap.empty T, []⟩ :
            MultiFrameListener T).deliverAll arrivals).chan = [])
    ∧ (∀ (l : MultiFrameListener T) (arrivals : List (FrameType × T)),
        (l.deliverAll arrivals).chan = [] →
        l.get_frames_with_timeout arrivals
          = Except.error RecvTimeoutError.timeout) := by
  refine ⟨rfl, ?_, ?_, ?_, ?_⟩
  · intro ts h
    rw [MultiFrameListener.new, if_neg]
    simp [h]
  · intro l ty fr
    constructor
    · intro hc
      simp [MultiFrameListener.deliver, hc]
    · intro hc
      simp [MultiFrameListener.deliver, hc]
  · intro ts arrivals t h1 h2
    have hget : (FrameMap.empty T).get t = none := by
      cases t <;> rfl
    exact (deliverAll_chan_avoid t arrivals _ h1 hget h2).1
  · intro l arrivals h
    rw [MultiFrameListener.get_frames_with_timeout]
    split
    · rfl
    · simp_all

/-- Witness for C2: with required types Color and Depth, delivering only
Color frames never hands off a set. -/
theorem C2_witness :
    ((⟨FrameTypes.ofList [FrameType.Color, FrameType.Depth],
        FrameMap.empty Nat, []⟩ :
          MultiFrameListener Nat).deliverAll
        [(FrameType.Color, 1), (FrameType.Color, 2)]).chan = [] := by
  exact (C2_aggregator_protocol Nat).2.2.2.1
    [FrameType.Color, FrameType.Depth]
    [(FrameType.Color, 1), (FrameType.Color, 2)] FrameType.Depth
    (by decide) (by decide)

/-- C3 counterexample: with required type Color, completing two sets
without draining leaves BOTH sets available, and the consumer receives
the OLDER one first — completed sets are queued, not overwritten, so the
most-recent-only / silent-drop behaviour stated by the claim does not
occur. -/
theorem C3_counterexample :
    MultiFrameListener.new Nat [FrameType.Color]
        = Except.ok ⟨⟨true, false, false⟩, FrameMap.empty Nat, []⟩
    ∧ ((((⟨⟨true, false, false⟩, FrameMap.empty Nat, []⟩ :
          MultiFrameListener Nat).deliver FrameType.Color 1).deliver
            FrameType.Color 2).get_frames).map (fun p => p.1)
        = some ⟨some 1, none, none⟩
    ∧ (((((⟨⟨true, false, false⟩, FrameMap.empty Nat, []⟩ :
          MultiFrameListener Nat).deliver FrameType.Color 1).deliver
            FrameType.Color 2).get_frames).bind
          (fun p => p.2.get_frames)).map (fun p => p.1)
        = some ⟨some 2, none, none⟩ := by
  decide

/-- C3 (amended): completed sets are handed to an unbounded FIFO channel;
a delivery either leaves the channel alone or appends the newly completed
set at the end, a whole delivery sequence only appends, and the consumer
receives the oldest completed set first — so undrained completed sets are
all retained and received in completion order, none dropped. -/
theorem C3_fifo_queue (T : Type) (l : MultiFrameListener T)
    (ty : FrameType) (fr : T) (m : FrameMap T)
    (rest : List (FrameMap T)) :
    ((l.deliver ty fr).chan = l.chan
        ∨ (l.deliver ty fr).chan = l.chan ++ [l.frames.insert ty fr])
    ∧ (∀ arrivals : List (FrameType × T),
        ∃ news, (l.deliverAll arrivals).chan = l.chan ++ news)
    ∧ (l.chan = m :: rest →
        l.get_frames = some (m, ⟨l.types, l.frames, rest⟩)) := by
  refine ⟨?_, fun arrivals => deliverAll_chan_append arrivals l, ?_⟩
  · by_cases hc : (l.frames.insert ty fr).contains_values l.types = true
    · right
      simp [MultiFrameListener.deliver, hc]
    · left
      simp [MultiFrameListener.deliver, hc]
  · intro h
    simp [MultiFrameListener.get_frames, h]

/-- Witness for C3 (amended) at a channel holding two completed sets: the
consumer receives the older set and the newer remains queued. -/
theorem C3_witness :
    (⟨⟨true, false, false⟩, FrameMap.empty Nat,
        [⟨some 1, none, none⟩, ⟨some 2, none, none⟩]⟩ :
          MultiFrameListener Nat).get_frames
      = some (⟨some 1, none, none⟩,
          ⟨⟨true, false, false⟩, FrameMap.empty Nat,
            [⟨some 2, none, none⟩]⟩) := by
  exact (C3_fifo_queue Nat
    ⟨⟨true, false, false⟩, FrameMap.empty Nat,
      [⟨some 1, none, none⟩, ⟨some 2, none, none⟩]⟩
    FrameType.Color 0 ⟨some 1, none, none⟩
    [⟨some 2, none, none⟩]).2.2 rfl

/-- C10: when a delivery completes the required set, the handoff takes
the ENTIRE internal map — the completed map is appended to the channel
and any frame of a type outside the required set that was delivered
earlier is still present in it. -/
theorem C10_handoff_takes_entire_map (T : Type)
    (l : MultiFrameListener T) (ty : FrameType) (fr : T)
    (hc : (l.frames.insert ty fr).contains_values l.types = true) :
    (l.deliver ty fr).chan = l.chan ++ [l.frames.insert ty fr]
    ∧ (∀ t, l.types.mem t = false → (l.frames.get t).isSome = true →
        ((l.frames.insert ty fr).get t).isSome = true) := by
  constructor
  · simp [MultiFrameListener.deliver, hc]
  · intro t hmem hsome
    by_cases hne : t = ty
    · subst hne
      cases t <;> simp [FrameMap.insert, FrameMap.get]
    · rw [FrameMap.insert_get_of_ne _ _ _ _ hne]
      exact hsome

/-- Witness for C10: required types Color and Depth, an Ir frame already
pending; delivering the completing Depth frame hands off a map that still
contains the Ir frame. -/
theorem C10_witness :
    ((⟨⟨true, false, true⟩, ⟨some 1, some 9, none⟩, []⟩ :
        MultiFrameListener Nat).deliver FrameType.Depth 2).chan
      = [⟨some 1, some 9, some 2⟩]
    ∧ (((⟨some 1, some 9, none⟩ : FrameMap Nat).insert
        FrameType.Depth 2).get FrameType.Ir).isSome = true := by
  have h := C10_handoff_takes_entire_map Nat
    ⟨⟨true, false, true⟩, ⟨some 1, some 9, none⟩, []⟩
    FrameType.Depth 2 (by decide)
  exact ⟨h.1.trans (by decide), h.2 FrameType.Ir (by decide) (by decide)⟩

/-- A successful upgrade means the stored weak reference points at a
context that still has a live holder. -/
theorem upgrade_eq_some {s : GuardState} {i : Nat}
    (h : s.upgrade = some i) : s.weakRef = some i ∧ i ∈ s.handles := by
  unfold GuardState.upgrade at h
  cases hw : s.weakRef with
  | none => rw [hw, Option.none_bind] at h; exact absurd h (by simp)
  | some j =>
    rw [hw, Option.some_bind] at h
    by_cases hc : j ∈ s.handles
    · rw [if_pos hc] at h
      have hj : j = i := Option.some.inj h
      subst hj
      exact ⟨rfl, hc⟩
    · rw [if_neg hc] at h
      exact absurd h (by simp)

/-- The guard invariant: every live handle holds the context the stored
weak reference points at, and every held id was produced by a past
construction. -/
theorem guard_invariant (s : GuardState) (h : GuardReachable s) :
    (∀ i ∈ s.handles, s.weakRef = some i)
      ∧ (∀ i ∈ s.handles, i < s.nextId) := by
  induction h with
  | init =>
    constructor <;> intro i hi <;> simp at hi
  | @step_new s createOk h ih =>
    obtain ⟨ih1, ih2⟩ := ih
    cases hu : s.upgrade with
    | some i =>
      obtain ⟨hw, hmem⟩ := upgrade_eq_some hu
      simp only [Freenect2.new, hu]
      constructor
      · intro j hj
        rcases List.mem_cons.mp hj with hj | hj
        · rw [hj]; exact hw
        · exact ih1 j hj
      · intro j hj
        rcases List.mem_cons.mp hj with hj | hj
        · rw [hj]; exact ih2 i hmem
        · exact ih2 j hj
    | none =>
      have hempty : s.handles = [] := by
        cases hw : s.weakRef with
        | none =>
          rcases hh : s.handles with _ | ⟨a, rest⟩
          · rfl
          · have := ih1 a (by rw [hh]; exact List.mem_cons_self a rest)
            rw [hw] at this
            exact absurd this (by simp)
        | some j =>
          rcases hh : s.handles with _ | ⟨a, rest⟩
          · rfl
          · have ha : a ∈ s.handles := by
              rw [hh]; exact List.mem_cons_self a rest
            have haj : s.weakRef = some a := ih1 a ha
            rw [hw] at haj
            have : a = j := (Option.some.inj haj).symm
            subst this
            unfold GuardState.upgrade at hu
            rw [hw, Option.some_bind, if_pos ha] at hu
            exact absurd hu (by simp)
      cases createOk with
      | true =>
        simp only [Freenect2.new, hu, if_pos]
        constructor
        · intro j hj
          rw [hempty] at hj
          rcases List.mem_cons.mp hj with hj | hj
          · rw [hj]
          · simp at hj
        · intro j hj
          rw [hempty] at hj
          rcases List.mem_cons.mp hj with hj | hj
          · rw [hj]; exact Nat.lt_succ_self s.nextId
          · simp at hj
      | false =>
        simp only [Freenect2.new, hu]
        exact ⟨ih1, ih2⟩
  | @step_drop s i h ih =>
    obtain ⟨ih1, ih2⟩ := ih
    constructor
    · intro j hj
      exact ih1 j (List.mem_of_mem_erase hj)
    · intro j hj
      exact ih2 j (List.mem_of_mem_erase hj)

/-- C1: in every reachable guard state no two distinct native contexts
are simultaneously live; `new()` hands out the already-live context
whenever any live holder remains; and when the weak reference fails to
upgrade, `new()` constructs and hands out a genuinely fresh context. -/
theorem C1_single_live_context (s : GuardState) (h : GuardReachable s) :
    (∀ i ∈ s.handles, ∀ j ∈ s.handles, i = j)
    ∧ (∀ i ∈ s.handles, ∀ createOk,
        (Freenect2.new s createOk).1 = some i)
    ∧ (s.upgrade = none →
        (Freenect2.new s true).1 = some s.nextId
          ∧ s.nextId ∉ s.handles) := by
  obtain ⟨hw, hb⟩ := guard_invariant s h
  refine ⟨?_, ?_, ?_⟩
  · intro i hi j hj
    have hij := (hw i hi).symm.trans (hw j hj)
    exact Option.some.inj hij
  · intro i hi createOk
    have hu : s.upgrade = some i := by
      unfold GuardState.upgrade
      rw [hw i hi, Option.some_bind, if_pos hi]
    simp [Freenect2.new, hu]
  · intro hu
    constructor
    · simp [Freenect2.new, hu]
    · intro hmem
      exact absurd (hb s.nextId hmem) (lt_irrefl s.nextId)

/-- Witness for C1 after one construction from the initial state: all
live handles agree on the single context, and a second `new()` shares
context 0 instead of creating another. -/
theorem C1_witness :
    (∀ i ∈ (Freenect2.new ⟨0, none, []⟩ true).2.handles,
        ∀ j ∈ (Freenect2.new ⟨0, none, []⟩ true).2.handles, i = j)
    ∧ (Freenect2.new (Freenect2.new ⟨0, none, []⟩ true).2 true).1
        = some 0 := by
  have h := C1_single_live_context (Freenect2.new ⟨0, none, []⟩ true).2
    (GuardReachable.step_new GuardReachable.init)
  exact ⟨h.1, h.2.1 0 (by decide) true⟩

/-- In-range pixel coordinates keep the pixel's byte range inside the
frame buffer. -/
theorem pixel_index_bound (w hh bpp x y : Nat) (hx : x < w)
    (hy : y < hh) :
    (y * w + x) * bpp + bpp ≤ w * hh * bpp := by
  have h1 : y * w + x + 1 ≤ w * hh := by
    have e1 : (y + 1) * w = y * w + w := by ring
    have h2 : (y + 1) * w ≤ hh * w :=
      Nat.mul_le_mul (Nat.succ_le_of_lt hy) (Nat.le_refl w)
    have h3 : y * w + x + 1 ≤ y * w + w := by omega
    calc y * w + x + 1 ≤ y * w + w := h3
      _ = (y + 1) * w := e1.symm
      _ ≤ hh * w := h2
      _ = w * hh := Nat.mul_comm hh w
  calc (y * w + x) * bpp + bpp = (y * w + x + 1) * bpp := by ring
    _ ≤ (w * hh) * bpp := Nat.mul_le_mul h1 (Nat.le_refl bpp)
    _ = w * hh * bpp := rfl

/-- An in-bounds `get?` yields the `getD` value. -/
theorem get?_eq_some_getD {α : Type} (l : List α) (d : α) (j : Nat)
    (h : j < l.length) : l.get? j = some (l.getD j d) := by
  rw [List.get?_eq_getElem?, List.getElem?_eq_getElem h,
    List.getD_eq_getElem l d h]

/-- Peeling one in-bounds element off a dropped list. -/
theorem drop_eq_getD_cons {α : Type} (l : List α) (d : α) (i : Nat)
    (h : i < l.length) :
    l.drop i = l.getD i d :: l.drop (i + 1) := by
  rw [List.getD_eq_getElem l d h]
  exact List.drop_eq_getElem_cons h

/-- The four bytes sliced at an in-bounds offset, element by element. -/
theorem take_four_drop {α : Type} (l : List α) (d : α) (i : Nat)
    (h : i + 4 ≤ l.length) :
    (l.drop i).take 4
      = [l.getD i d, l.getD (i + 1) d, l.getD (i + 2) d,
          l.getD (i + 3) d] := by
  rw [drop_eq_getD_cons l d i (by omega),
    drop_eq_getD_cons l d (i + 1) (by omega)]
  have e2 : i + 1 + 1 = i + 2 := by omega
  rw [e2, drop_eq_getD_cons l d (i + 2) (by omega)]
  have e3 : i + 2 + 1 = i + 3 := by omega
  rw [e3, drop_eq_getD_cons l d (i + 3) (by omega)]
  rfl

/-- C7: for in-range coordinates, `get_pixel` reads the bytes starting at
offset `(y*width + x)*bytes_per_pixel` and decodes them by format exactly
as the specification describes (Float: the native-endian 4 bytes; RGBX:
bytes 0..3 as R,G,B,X; BGRX: channels 0 and 2 swapped; Gray/Invalid: the
single byte; Raw: the `bytes_per_pixel`-byte slice), and out-of-range
coordinates panic. -/
theorem C7_get_pixel_decoding (f : Frame) (x y : Nat)
    (hlen : f.raw_data.length = f.width * f.height * f.bytes_per_pixel)
    (hbpp4 : f.format = FrameFormat.Float ∨ f.format = FrameFormat.RGBX
        ∨ f.format = FrameFormat.BGRX → f.bytes_per_pixel = 4)
    (hbpp1 : 1 ≤ f.bytes_per_pixel) :
    (x < f.width → y < f.height →
      f.get_pixel x y = some (f.spec_pixel_value x y))
    ∧ (f.width ≤ x ∨ f.height ≤ y → f.get_pixel x y = none) := by
  constructor
  · intro hx hy
    have hbound : (y * f.width + x) * f.bytes_per_pixel
        + f.bytes_per_pixel ≤ f.raw_data.length := by
      rw [hlen]
      exact pixel_index_bound f.width f.height f.bytes_per_pixel x y hx hy
    cases hf : f.format with
    | Float =>
      have h4 : f.bytes_per_pixel = 4 := hbpp4 (Or.inl hf)
      have hb : (y * f.width + x) * f.bytes_per_pixel + 4
          ≤ f.raw_data.length := by omega
      simp only [Frame.get_pixel, Frame.spec_pixel_value, hf, hx, hy,
        if_true, if_pos hb]
      rw [take_four_drop f.raw_data 0
        ((y * f.width + x) * f.bytes_per_pixel) hb]
      simp
    | RGBX =>
      have h4 : f.bytes_per_pixel = 4 := hbpp4 (Or.inr (Or.inl hf))
      have hb0 : (y * f.width + x) * f.bytes_per_pixel
          < f.raw_data.length := by omega
      have hb1 : (y * f.width + x) * f.bytes_per_pixel + 1
          < f.raw_data.length := by omega
      have hb2 : (y * f.width + x) * f.bytes_per_pixel + 2
          < f.raw_data.length := by omega
      have hb3 : (y * f.width + x) * f.bytes_per_pixel + 3
          < f.raw_data.length := by omega
      simp only [Frame.get_pixel, Frame.spec_pixel_value, hf, hx, hy,
        if_true]
      rw [get?_eq_some_getD f.raw_data 0 _ hb0,
        get?_eq_some_getD f.raw_data 0 _ hb1,
        get?_eq_some_getD f.raw_data 0 _ hb2,
        get?_eq_some_getD f.raw_data 0 _ hb3]
      simp
    | BGRX =>
      have h4 : f.bytes_per_pixel = 4 := hbpp4 (Or.inr (Or.inr hf))
      have hb0 : (y * f.width + x) * f.bytes_per_pixel
          < f.raw_data.length := by omega
      have hb1 : (y * f.width + x) * f.bytes_per_pixel + 1
          < f.raw_data.length := by omega
      have hb2 : (y * f.width + x) * f.bytes_per_pixel + 2
          < f.raw_data.length := by omega
      have hb3 : (y * f.width + x) * f.bytes_per_pixel + 3
          < f.raw_data.length := by omega
      simp only [Frame.get_pixel, Frame.spec_pixel_value, hf, hx, hy,
        if_true]
      rw [get?_eq_some_getD f.raw_data 0 _ hb0,
        get?_eq_some_getD f.raw_data 0 _ hb1,
        get?_eq_some_getD f.raw_data 0 _ hb2,
        get?_eq_some_getD f.raw_data 0 _ hb3]
      simp
    | Gray =>
      have hb0 : (y * f.width + x) * f.bytes_per_pixel
          < f.raw_data.length := by omega
      simp only [Frame.get_pixel, Frame.spec_pixel_value, hf, hx, hy,
        if_true]
      rw [get?_eq_some_getD f.raw_data 0 _ hb0]
      simp
    | Raw =>
      simp only [Frame.get_pixel, Frame.spec_pixel_value, hf, hx, hy,
        if_true, if_pos hbound]
    | Invalid =>
      have hb0 : (y * f.width + x) * f.bytes_per_pixel
          < f.raw_data.length := by omega
      simp only [Frame.get_pixel, Frame.spec_pixel_value, hf, hx, hy,
        if_true]
      rw [get?_eq_some_getD f.raw_data 0 _ hb0]
      simp
  · intro h
    rw [Frame.get_pixel]
    rcases h with h | h
    · rw [if_neg (not_lt.mpr h)]
    · by_cases hx : x < f.width
      · rw [if_pos hx, if_neg (not_lt.mpr h)]
      · rw [if_neg hx]

/-- Witness for C7 at a concrete 2x2 BGRX frame: pixel (1,0) starts at
byte offset 4 and is decoded with channels 0 and 2 swapped; coordinate
x = 2 is out of range and panics. -/
theorem C7_witness :
    (⟨2, 2, 4, [0, 1, 2, 3, 4, 5, 6, 7, 8, 9, 10, 11, 12, 13, 14, 15],
        0, 0, 0, 0, 0, 0, FrameFormat.BGRX⟩ : Frame).get_pixel 1 0
      = some (FrameValue.RGBX ⟨6, 5, 4, 7⟩)
    ∧ (⟨2, 2, 4, [0, 1, 2, 3, 4, 5, 6, 7, 8, 9, 10, 11, 12, 13, 14, 15],
        0, 0, 0, 0, 0, 0, FrameFormat.BGRX⟩ : Frame).get_pixel 2 0
      = none := by
  have h := C7_get_pixel_decoding
    ⟨2, 2, 4, [0, 1, 2, 3, 4, 5, 6, 7, 8, 9, 10, 11, 12, 13, 14, 15],
      0, 0, 0, 0, 0, 0, FrameFormat.BGRX⟩ 1 0
    (by decide) (fun _ => rfl) (by decide)
  have h2 := C7_get_pixel_decoding
    ⟨2, 2, 4, [0, 1, 2, 3, 4, 5, 6, 7, 8, 9, 10, 11, 12, 13, 14, 15],
      0, 0, 0, 0, 0, 0, FrameFormat.BGRX⟩ 2 0
    (by decide) (fun _ => rfl) (by decide)
  constructor
  · rw [h.1 (by decide) (by decide)]
    decide
  · exact h2.2 (Or.inl (by decide))

end LibFreenect2
